import Mathlib

/-!
Verification development for the `bdc_stac.data` module: a shallow embedding
of its query-filter compiler, visibility filter, band/metadata resolvers,
catalog assembler and pagination, together with theorems settling the
specification claims about them.

Conventions of the embedding:
* Python exceptions are modelled by the `PyError` type and fallible code
  returns `Except PyError _`.
* SQL/Python floats are modelled by `Rat`; dates and timestamps are modelled
  by ISO-format strings compared lexicographically (which agrees with the
  chronological order the database uses on ISO-formatted values).
* The SQLAlchemy filter expressions built by `get_collection_items` are
  modelled by the inductive `Pred`; evaluating the compiled query against a
  database is `List.filter` with the conjunction of the compiled predicates.
* PostGIS functions (`ST_Intersects`, `ST_GeomFromGeoJSON`, envelope
  intersection, SQL `LIKE`) are external collaborators and are modelled as
  uninterpreted boolean oracles bundled in `GeoEnv`.
-/

namespace BdcStac

/-- Python exception kinds raised (directly or indirectly) by `data.py`.
`invalidBoundingBox` is the module's own `InvalidBoundingBoxError`. -/
inductive PyError where
  | valueError
  | keyError
  | indexError
  | attributeError
  | typeError
  | invalidBoundingBox
deriving DecidableEq

/-- Digit characters to a natural number (helper for the numeric parsers). -/
def digitsToNat (cs : List Char) : Nat :=
  cs.foldl (fun a c => a * 10 + (c.toNat - 48)) 0

/-- Split a character list at every occurrence of the separator
(Python `str.split(sep)` semantics: `"".split(sep) == [""]`,
adjacent separators yield empty pieces). -/
def splitCharAux (c : Char) : List Char → List Char → List (List Char)
  | [], acc => [acc.reverse]
  | x :: xs, acc =>
    if x == c then acc.reverse :: splitCharAux c xs []
    else splitCharAux c xs (x :: acc)

/-- Python `s.split(sep)` for a single-character separator. -/
def pySplit (s : String) (c : Char) : List String :=
  (splitCharAux c s.toList []).map String.mk

/-- Strip leading and trailing whitespace (Python `str.strip()`). -/
def trimChars (cs : List Char) : List Char :=
  ((cs.dropWhile (·.isWhitespace)).reverse.dropWhile (·.isWhitespace)).reverse

/-- Lexicographic strict order on character lists (by code point), the
order the database uses on ISO-formatted date strings. -/
def lexLtChars : List Char → List Char → Bool
  | [], [] => false
  | [], _ :: _ => true
  | _ :: _, [] => false
  | a :: as, b :: bs =>
    if a.toNat < b.toNat then true
    else if b.toNat < a.toNat then false
    else lexLtChars as bs

/-- Strict lexicographic order on strings. -/
def strLt (s t : String) : Bool := lexLtChars s.toList t.toList

/-- Lexicographic order on strings (`s ≤ t` iff not `t < s`). -/
def strLe (s t : String) : Bool := !strLt t s

/-- Model of Python `float(s)` restricted to plain decimal literals:
optional sign, integer digits, optional fractional part (`"1"`, `"-2.5"`,
`".5"`, `"1."`).  Returns `none` where Python raises `ValueError`.
(Exponent/inf/nan forms are not needed by any claim and are not modelled.) -/
def pyFloat (s : String) : Option Rat :=
  let cs := trimChars s.toList
  let (sign, rest) :=
    match cs with
    | '-' :: tl => ((-1 : Rat), tl)
    | '+' :: tl => ((1 : Rat), tl)
    | _ => ((1 : Rat), cs)
  match splitCharAux '.' rest [] with
  | [ic] =>
      if !ic.isEmpty && ic.all (·.isDigit) then
        some (sign * (digitsToNat ic : Rat))
      else none
  | [ic, fc] =>
      if (!ic.isEmpty || !fc.isEmpty) && ic.all (·.isDigit) && fc.all (·.isDigit) then
        some (sign * ((digitsToNat ic : Rat) + (digitsToNat fc : Rat) / ((10 : Rat) ^ fc.length)))
      else none
  | _ => none

/-- Model of Python `int(s)`: optional surrounding whitespace, optional
sign, then decimal digits; raises `ValueError` otherwise. -/
def pyInt (s : String) : Except PyError Int :=
  let cs := trimChars s.toList
  let (sign, rest) :=
    match cs with
    | '-' :: tl => ((-1 : Int), tl)
    | '+' :: tl => ((1 : Int), tl)
    | _ => ((1 : Int), cs)
  if !rest.isEmpty && rest.all (·.isDigit) then
    .ok (sign * (digitsToNat rest : Int))
  else .error .valueError

/-- `[int(r.split(":")[0]) for r in roles]` — parse the collection-id prefix
of every role string; a malformed prefix raises `ValueError`. -/
def parse_roles (roles : List String) : Except PyError (List Int) :=
  roles.mapM (fun r => pyInt ((pySplit r ':').headD ""))

/-- A value appearing in a STAC `query` property filter. -/
inductive QVal where
  | str (s : String)
  | num (q : Rat)
  | list (l : List QVal)

/-- The `query` parameter: property name ↦ (operator ↦ value), in insertion
order, as `create_query_filter` iterates it. -/
abbrev QueryMap := List (String × List (String × QVal))

/-- The SQLAlchemy filter expressions appended to the `where` list of
`get_collection_items` (and the two fixed initial conjuncts). -/
inductive Pred where
  /-- `Collection.id == Item.collection_id` (the join condition). -/
  | collectionJoin
  /-- `or_(Collection.is_public.is_(True), Collection.id.in_(roleIds))`. -/
  | visibility (roleIds : List Int)
  /-- `Item.name.in_(ids.split(","))`. -/
  | itemNameIn (names : List String)
  /-- `Item.name.like(item_id)`. -/
  | itemNameLike (pattern : String)
  /-- `func.concat(Collection.name, "-", Collection.version).in_(...)`. -/
  | extIdIn (l : List String)
  /-- `func.concat(Collection.name, "-", Collection.version) == collection_id`. -/
  | extIdEq (s : String)
  /-- One predicate produced by `create_query_filter` for a
  `(property, operator, value)` triple. -/
  | propFilter (prop : String) (op : String) (v : QVal)
  /-- `func.ST_Intersects(func.ST_GeomFromGeoJSON(str(intersects)), Item.geom)`. -/
  | intersectsGeom (g : String)
  /-- `func.ST_Intersects(func.ST_MakeEnvelope(x1, y1, x2, y2, ST_SRID(Item.geom)), Item.geom)`
  (the envelope is built in the item geometry's native SRID). -/
  | intersectsEnvelope (x1 y1 x2 y2 : Rat)
  /-- `or_(and_(start_date >= ts, start_date <= te), and_(end_date >= ts, end_date <= te))`. -/
  | dateRange (ts te : String)
  /-- `or_(Item.start_date <= t, Item.end_date <= t)`. -/
  | dateInstant (t : String)

/-- Operator names accepted by `create_query_filter`'s `mapping` table. -/
def mappingOps : List String :=
  ["eq", "neq", "lt", "lte", "gt", "gte", "startsWith", "endsWith", "contains", "in"]

/-- Property names accepted by `create_query_filter`'s `bdc_properties` table. -/
def bdc_property_names : List String :=
  ["bdc:tile", "eo:cloud_cover"]

/-- `create_query_filter(query)`: one predicate per `(property, operator,
value)` triple; unknown property or operator raises `KeyError` (the dict
lookups `bdc_properties[column]` / `mapping[op]`).  Returns `none` when no
filter was produced (source returns `None` for an empty list). -/
def create_query_filter (query : QueryMap) : Except PyError (Option (List Pred)) := do
  let filters ← query.foldlM
    (fun acc p =>
      p.2.foldlM
        (fun acc2 ov =>
          if bdc_property_names.contains p.1 && mappingOps.contains ov.1 then
            pure (acc2 ++ [Pred.propFilter p.1 ov.1 ov.2])
          else
            Except.error PyError.keyError)
        acc)
    ([] : List Pred)
  return if filters.length > 0 then some filters else none

/-- The bbox branch of `get_collection_items`: split on commas, parse every
piece as a float, raise `InvalidBoundingBoxError` when the first and third
or the second and fourth coordinates coincide, and build the envelope
predicate from the first four coordinates.  Every failure inside the branch
(float `ValueError`, `IndexError` on a short list, the explicit degenerate
raise) is caught by the bare `except:` and surfaces as
`InvalidBoundingBoxError`. -/
def compile_bbox (bbox : String) : Except PyError Pred :=
  match (pySplit bbox ',').mapM pyFloat with
  | none => .error .invalidBoundingBox
  | some vals =>
    match vals[0]?, vals[1]?, vals[2]?, vals[3]? with
    | some a, some b, some c, some d =>
        if a == c || b == d then .error .invalidBoundingBox
        else .ok (.intersectsEnvelope a b c d)
    | _, _, _, _ => .error .invalidBoundingBox

/-- The datetime branch of `get_collection_items`: a `/` makes it an
inclusive range (exactly two components, else the tuple unpacking raises
`ValueError`), otherwise the whole string is a single instant. -/
def compile_datetime (datetime : String) : Except PyError (List Pred) :=
  match pySplit datetime '/' with
  | [_] => .ok [Pred.dateInstant datetime]
  | [ts, te] => .ok [Pred.dateRange ts te]
  | _ => .error .valueError

/-- The `query` step of `get_collection_items` (lines 104–107):
`if query: filters = create_query_filter(query); if filters: where += filters`
— `if query:` is Python truthiness (`None` and the empty dict both skip),
and `create_query_filter`'s `KeyError` on an unknown property or operator
propagates. -/
def items_query_filters (query : Option QueryMap) : Except PyError (List Pred) :=
  match query with
  | some q =>
    if q.isEmpty then pure [] else do
      match ← create_query_filter q with
      | some fs => pure fs
      | none => pure []
  | none => pure ([] : List Pred)

/-- The filters appended after the two fixed conjuncts, following the
source's precedence: `ids`, else `item_id`, else the combination of
collection scoping, `query`, spatial filter and temporal filter. -/
def items_where_rest (collection_id item_id bbox datetime ids collections intersects :
    Option String) (query : Option QueryMap) : Except PyError (List Pred) :=
  match ids with
  | some s => .ok [Pred.itemNameIn (pySplit s ',')]
  | none =>
    match item_id with
    | some p => .ok [Pred.itemNameLike p]
    | none => do
      let w1 :=
        match collections with
        | some cs => [Pred.extIdIn (pySplit cs ',')]
        | none =>
          match collection_id with
          | some c => [Pred.extIdEq c]
          | none => []
      let w2 ← items_query_filters query
      let w3 ←
        match intersects with
        | some g => pure [Pred.intersectsGeom g]
        | none =>
          match bbox with
          | some b => do
            let p ← compile_bbox b
            pure [p]
          | none => pure ([] : List Pred)
      let w4 ←
        match datetime with
        | some d => compile_datetime d
        | none => pure ([] : List Pred)
      return w1 ++ w2 ++ w3 ++ w4

/-- The full `where` list compiled by `get_collection_items`: the join
condition and the visibility predicate (parsed from `roles`) followed by
the precedence-ordered filters of `items_where_rest`. -/
def get_collection_items_where (collection_id : Option String) (roles : List String)
    (item_id bbox datetime ids collections intersects : Option String)
    (query : Option QueryMap) : Except PyError (List Pred) := do
  let roleIds ← parse_roles roles
  let rest ← items_where_rest collection_id item_id bbox datetime ids collections intersects query
  return Pred.collectionJoin :: Pred.visibility roleIds :: rest

/-- A row of the item query's join: the selected columns of
`Collection × Item` outer-joined with `Tile` that the compiled `where`
predicates read.  `tile` is `none` for items without a tile (outer join /
SQL NULL), `cloud_cover` is the nullable cloud-cover column. -/
structure ItemRow where
  coll_id : Int
  is_public : Bool
  coll_name : String
  coll_version : String
  collection_type : String
  item_name : String
  item_collection_id : Int
  start : String
  end_ : String
  cloud_cover : Option Rat
  geom : String
  tile : Option String

/-- Uninterpreted oracles for the storage engine's native predicates:
PostGIS geometry intersection (GeoJSON form and envelope form, both against
the stored item geometry) and SQL `LIKE`. -/
structure GeoEnv where
  intersectsGeoJSON : String → String → Bool
  intersectsEnvelope : Rat → Rat → Rat → Rat → String → Bool
  sqlLike : String → String → Bool

/-- Substring test (SQL `LIKE '%v%'`, i.e. the `contains` operator). -/
def strContainsSub (s t : String) : Bool :=
  if t.isEmpty then true else (s.splitOn t).length ≥ 2

/-- Evaluate one `create_query_filter` operator against a string column
value (used for `bdc:tile`, i.e. `Tile.name`). -/
def evalOpOnStr (op : String) (s : String) (v : QVal) : Bool :=
  match op, v with
  | "eq", .str t => s == t
  | "neq", .str t => s != t
  | "lt", .str t => strLt s t
  | "lte", .str t => strLe s t
  | "gt", .str t => strLt t s
  | "gte", .str t => strLe t s
  | "startsWith", .str t => t.isPrefixOf s
  | "endsWith", .str t => s.endsWith t
  | "contains", .str t => strContainsSub s t
  | "in", .list l => l.any (fun q => match q with | .str t => t == s | _ => false)
  | _, _ => false

/-- Evaluate one `create_query_filter` operator against a numeric column
value (used for `eo:cloud_cover`, i.e. `Item.cloud_cover`). -/
def evalOpOnNum (op : String) (c : Rat) (v : QVal) : Bool :=
  match op, v with
  | "eq", .num q => c == q
  | "neq", .num q => c != q
  | "lt", .num q => decide (c < q)
  | "lte", .num q => decide (c ≤ q)
  | "gt", .num q => decide (q < c)
  | "gte", .num q => decide (q ≤ c)
  | "in", .list l => l.any (fun q => match q with | .num t => t == c | _ => false)
  | _, _ => false

/-- Evaluate a property filter on a row.  SQL three-valued logic on NULL
columns is collapsed to `false` (a NULL comparison is not TRUE, so the row
is filtered out). -/
def evalPropFilter (r : ItemRow) (prop op : String) (v : QVal) : Bool :=
  if prop == "bdc:tile" then
    match r.tile with
    | none => false
    | some t => evalOpOnStr op t v
  else if prop == "eo:cloud_cover" then
    match r.cloud_cover with
    | none => false
    | some c => evalOpOnNum op c v
  else false

/-- Truth of a compiled predicate on a join row.  Date/timestamp columns are
ISO strings compared lexicographically (chronological order). -/
def evalPred (env : GeoEnv) (r : ItemRow) : Pred → Bool
  | .collectionJoin => r.coll_id == r.item_collection_id
  | .visibility roleIds => r.is_public || roleIds.contains r.coll_id
  | .itemNameIn names => names.contains r.item_name
  | .itemNameLike p => env.sqlLike r.item_name p
  | .extIdIn l => l.contains (r.coll_name ++ "-" ++ r.coll_version)
  | .extIdEq s => (r.coll_name ++ "-" ++ r.coll_version) == s
  | .propFilter prop op v => evalPropFilter r prop op v
  | .intersectsGeom g => env.intersectsGeoJSON g r.geom
  | .intersectsEnvelope a b c d => env.intersectsEnvelope a b c d r.geom
  | .dateRange ts te =>
      (strLe ts r.start && strLe r.start te)
        || (strLe ts r.end_ && strLe r.end_ te)
  | .dateInstant t => strLe r.start t || strLe r.end_ t

/-- Insert a row into a list sorted by `start` descending (stable). -/
def insertStartDesc (r : ItemRow) : List ItemRow → List ItemRow
  | [] => [r]
  | x :: xs => if strLt x.start r.start then r :: x :: xs else x :: insertStartDesc r xs

/-- `order_by(Item.start_date.desc())`: sort rows by `start` descending. -/
def sortStartDesc (l : List ItemRow) : List ItemRow :=
  l.foldr insertStartDesc []

/-- Modelled from the spec: the pagination collaborator (the storage layer's
`paginate` called with `error_out=False` and `max_per_page` set, absent from
`src/`): 1-indexed page (pages below 1 are clamped to 1 instead of erroring),
page size clamped to the configured maximum, items are the corresponding
window of the result sequence (an out-of-range page yields an empty window,
not an error), and `has_next` tells whether a further page exists. -/
structure PageResult (α : Type) where
  items : List α
  total : Nat
  has_next : Bool

/-- Modelled from the spec: `query.paginate(page=…, per_page=limit,
error_out=False, max_per_page=BDC_STAC_MAX_LIMIT)`. -/
def paginate {α : Type} (rows : List α) (page limit maxLimit : Nat) : PageResult α :=
  let per := min limit maxLimit
  let p := max page 1
  { items := (rows.drop ((p - 1) * per)).take per
    total := rows.length
    has_next := p < (rows.length + per - 1) / per }

/-- `get_collection_items` end to end over an explicit database of join
rows: compile the `where` list, filter the rows by the conjunction of the
compiled predicates, order by start date descending, and paginate. -/
def get_collection_items_run (env : GeoEnv) (db : List ItemRow)
    (collection_id : Option String) (roles : List String)
    (item_id bbox datetime ids collections intersects : Option String)
    (query : Option QueryMap) (page limit maxLimit : Nat) :
    Except PyError (PageResult ItemRow) := do
  let preds ← get_collection_items_where collection_id roles item_id bbox datetime ids
    collections intersects query
  let rows := db.filter (fun r => preds.all (evalPred env r))
  return paginate (sortStartDesc rows) page limit maxLimit

/-- A `bdc.bands` row as selected by `get_collection_eo`: the numeric
columns are cast to `Float` in the source and modelled as `Rat`;
`gsd` is `cast(Band.resolution_x, Float).label("gsd")`. -/
structure Band where
  name : String
  common_name : String
  description : String
  min : Rat
  max : Rat
  nodata : Rat
  scale : Rat
  gsd : Rat
  data_type : String
  center_wavelength : Rat
  full_width_half_max : Rat

/-- The per-band descriptor dict appended to `eo_bands` (all selected
columns except `gsd`). -/
structure EOBand where
  name : String
  common_name : String
  description : String
  min : Rat
  max : Rat
  nodata : Rat
  scale : Rat
  center_wavelength : Rat
  full_width_half_max : Rat
  data_type : String

/-- Build the `eo:bands` descriptor of one band row. -/
def eoDescriptor (b : Band) : EOBand :=
  { name := b.name, common_name := b.common_name, description := b.description,
    min := b.min, max := b.max, nodata := b.nodata, scale := b.scale,
    center_wavelength := b.center_wavelength,
    full_width_half_max := b.full_width_half_max, data_type := b.data_type }

/-- The result dict of `get_collection_eo`. -/
structure EOResult where
  eo_gsd : Rat
  eo_bands : List EOBand

/-- `get_collection_eo` over the collection's band rows: the loop starts
with `eo_gsd = 0.0`, appends each band's descriptor, and replaces `eo_gsd`
by `band.gsd` whenever `band.gsd > eo_gsd`. -/
def get_collection_eo (bands : List Band) : EOResult :=
  let res := bands.foldl
    (fun (acc : List EOBand × Rat) b =>
      (acc.1 ++ [eoDescriptor b], if b.gsd > acc.2 then b.gsd else acc.2))
    (([], 0) : List EOBand × Rat)
  { eo_gsd := res.2, eo_bands := res.1 }

/-- A `bdc.grid_ref_sys` row. -/
structure GridRefSysRec where
  id : Int
  name : String
  crs : String

/-- JSON-like values held in the free-form `_metadata` blob of a
collection (and the analogous item metadata). -/
inductive MetaVal where
  | str (s : String)
  | num (q : Rat)
  | bool (b : Bool)
  | null
  | arr (l : List MetaVal)
  | obj (m : List (String × MetaVal))

/-- A JSON object: the association list of a Python dict, in insertion
order. -/
abbrev MetaObj := List (String × MetaVal)

/-- Dict key lookup returning an `Option` (Python's `k in d` / `d.get`). -/
def objLookup (m : MetaObj) (k : String) : Option MetaVal :=
  (m.find? (fun p => p.1 == k)).map (·.2)

/-- Python `v[k]` on a metadata value: key lookup on a dict raising
`KeyError` on a miss, `TypeError` on non-subscriptable values. -/
def pyGetItem (v : MetaVal) (k : String) : Except PyError MetaVal :=
  match v with
  | .obj m =>
    match objLookup m k with
    | some x => .ok x
    | none => .error .keyError
  | _ => .error .typeError

/-- Python `len(v)` on a metadata value (`TypeError` on unsized values). -/
def pyLen (v : MetaVal) : Except PyError Nat :=
  match v with
  | .arr l => .ok l.length
  | .obj m => .ok m.length
  | .str s => .ok s.length
  | _ => .error .typeError

/-- Python `v[0]` on a metadata value: list indexing raising `IndexError`
out of range, a dict raises `KeyError` (an integer is not one of our string
keys), a string yields its first character. -/
def pyIndexVal (v : MetaVal) (i : Nat) : Except PyError MetaVal :=
  match v with
  | .arr l =>
    match l[i]? with
    | some x => .ok x
    | none => .error .indexError
  | .obj _ => .error .keyError
  | .str s =>
    match s.toList[i]? with
    | some c => .ok (.str (String.mk [c]))
    | none => .error .indexError
  | _ => .error .typeError

/-- Python `v.get(k, default)`: only dicts have `.get`, anything else
raises `AttributeError`. -/
def pyGetDefault (v : MetaVal) (k : String) (dflt : MetaVal) : Except PyError MetaVal :=
  match v with
  | .obj m => .ok ((objLookup m k).getD dflt)
  | _ => .error .attributeError

/-- Python list indexing with `IndexError`, for the datacube dimension
derivation `bbox[0] … bbox[3]`. -/
def pyIndex {α : Type} (l : List α) (i : Nat) : Except PyError α :=
  match l[i]? with
  | some v => .ok v
  | none => .error .indexError

/-- The license derivation of `get_collections`:
`if r.meta and ("rightsList" in r.meta) and (len(r.meta["rightsList"]) > 0):
collection["license"] = r.meta["rightsList"][0].get("rights", "")` with an
empty-string default otherwise.  `if r.meta` is Python truthiness: `None`
and the empty dict both skip the block. -/
def getLicense (meta : Option MetaObj) : Except PyError MetaVal :=
  match meta with
  | none => .ok (.str "")
  | some m =>
    if m.isEmpty then .ok (.str "")
    else
      match objLookup m "rightsList" with
      | none => .ok (.str "")
      | some v => do
        let n ← pyLen v
        if n > 0 then do
          let first ← pyIndexVal v 0
          pyGetDefault first "rights" (.str "")
        else .ok (.str "")

/-- The platform/instrument lifting shared by `get_collections`
(lines 411–417) and `make_geojson` (lines 510–516):
`if meta: if "platform" in meta: properties["instruments"] =
meta["platform"]["instruments"]; properties["platform"] =
meta["platform"]["code"]; meta.pop("platform"); out["bdc:metadata"] = meta`.
The source pops the key from the metadata dict in place; the embedding
makes the state explicit and returns
`(instruments, platform, bdc:metadata, state of the source meta afterwards)`. -/
def lift_platform (meta : Option MetaObj) :
    Except PyError (Option MetaVal × Option MetaVal × Option MetaObj × Option MetaObj) :=
  match meta with
  | none => .ok (none, none, none, none)
  | some m =>
    if m.isEmpty then .ok (none, none, none, some m)
    else
      match objLookup m "platform" with
      | none => .ok (none, none, some m, some m)
      | some pv => do
        let instruments ← pyGetItem pv "instruments"
        let code ← pyGetItem pv "code"
        let m2 := m.filter (fun p => !(p.1 == "platform"))
        return (some instruments, some code, some m2, some m2)

/-- `get_collection_extent`: the `ST_Extent` aggregate (an external PostGIS
function) yields either SQL NULL (no items with geometry) or a string
`"BOX(x1 y1,x2 y2)"`; the source returns `[]` on a falsy value and
otherwise slices between the first `(` and the first `)`, replaces spaces
by commas and parses the four floats. -/
def get_collection_extent (extent_bbox : Option String) : Except PyError (List Rat) :=
  match extent_bbox with
  | none => .ok []
  | some s =>
    if s.isEmpty then .ok []
    else
      let cs := s.toList
      let a := (cs.indexOf '(') + 1
      let b := cs.indexOf ')'
      let inner := (cs.take b).drop a
      let replaced := inner.map (fun ch => if ch == ' ' then ',' else ch)
      let parts := (splitCharAux ',' replaced []).map String.mk
      parts.mapM (fun p =>
        match pyFloat p with
        | some q => Except.ok q
        | none => Except.error PyError.valueError)

/-- A row of the `get_collections` query: the selected collection columns
plus the outer-joined `CompositeFunction.name` and `GridRefSys.name`
(both `none` when the foreign key is NULL).  `grid_ref_sys_id` is kept for
the separate CRS query of `get_collection_crs`. -/
structure CollectionRow where
  id : Int
  is_public : Bool
  name : String
  version : String
  title : String
  description : String
  collection_type : String
  meta : Option MetaObj
  start : Option String
  end_ : Option String
  composite_function : Option String
  grid_ref_sys : Option String
  grid_ref_sys_id : Option Int
  temporal_composition_schema : Option MetaVal

/-- `get_collection_crs`: `first()` on the query joining the collection to
its `GridRefSys` (NULL `grid_ref_sys_id` matches no grid row), then
`grs.crs` — a missing grid makes `grs` `None` and the attribute access
raises `AttributeError` (a crash, not an explicit signal). -/
def get_collection_crs (colls : List CollectionRow) (grss : List GridRefSysRec)
    (collection_id : Int) : Except PyError String :=
  let hits := (colls.filter (fun c => c.id == collection_id)).flatMap
    (fun c => grss.filter (fun g => c.grid_ref_sys_id == some g.id))
  match hits.head? with
  | some g => .ok g.crs
  | none => .error .attributeError

/-- The database state the catalog assembler reads: the collection rows of
the `get_collections` query plus the per-collection sub-query results
(`ST_Extent` aggregate string, band rows, tile names, quicklook triple and
timeline), each indexed by the collection's integer id. -/
structure CatalogDB where
  collections : List CollectionRow
  st_extent : Int → Option String
  bands : Int → List Band
  tiles : Int → List String
  quicklook : Int → Option (List String)
  timeline : Int → List String

/-- The collection document assembled by `get_collections` for one row,
with one named field per JSON key the source sets (the `cube:*`/`bdc:crs`/
`bdc:temporal_composition` fields are `none` for non-cube collections,
where the source leaves the keys out). -/
structure CollectionDoc where
  id : String
  title : String
  version : String
  deprecated : Bool
  description : String
  license : MetaVal
  extent_bbox : List Rat
  temporal_interval : Option String × Option String
  bands_quicklook : Option (List String)
  properties_eo : EOResult
  properties_instruments : Option MetaVal
  properties_platform : Option MetaVal
  bdc_metadata : Option MetaObj
  bdc_grs : Option String
  bdc_tiles : List String
  bdc_composite_function : Option String
  cube_x_extent : Option (Rat × Rat)
  cube_y_extent : Option (Rat × Rat)
  cube_temporal_extent : Option (Option String × Option String)
  cube_temporal_values : Option (List String)
  cube_bands_values : Option (List String)
  bdc_crs : Option String
  bdc_temporal_composition : Option MetaVal

/-- The body of the `get_collections` loop for one row `r`, in source
order: license, spatial extent, temporal interval (`end` is only read when
`start` is truthy), quicklook, electro-optical properties, the
platform/instrument lifting, grid/tiles/composite function, and for
`collection_type == "cube"` the datacube dimensions (CRS lookup, then
`bbox[0] … bbox[3]`, raising `IndexError` on an empty extent).  Returns the
document together with the final state of the row's shared `meta` object
(which the lifting pops in place). -/
def assemble_collection (db : CatalogDB) (grss : List GridRefSysRec) (r : CollectionRow) :
    Except PyError (CollectionDoc × Option MetaObj) := do
  let lic ← getLicense r.meta
  let bbox ← get_collection_extent (db.st_extent r.id)
  let (startOpt, endOpt) :=
    match r.start with
    | none => (none, none)
    | some s => (some s, r.end_)
  let quicklooks := db.quicklook r.id
  let collection_eo := get_collection_eo (db.bands r.id)
  let (instruments, platformCode, bdcMeta, metaAfter) ← lift_platform r.meta
  let base : CollectionDoc :=
    { id := r.name ++ "-" ++ r.version
      title := r.title
      version := r.version
      deprecated := false
      description := r.description
      license := lic
      extent_bbox := bbox
      temporal_interval := (startOpt, endOpt)
      bands_quicklook := quicklooks
      properties_eo := collection_eo
      properties_instruments := instruments
      properties_platform := platformCode
      bdc_metadata := bdcMeta
      bdc_grs := r.grid_ref_sys
      bdc_tiles := db.tiles r.id
      bdc_composite_function := r.composite_function
      cube_x_extent := none
      cube_y_extent := none
      cube_temporal_extent := none
      cube_temporal_values := none
      cube_bands_values := none
      bdc_crs := none
      bdc_temporal_composition := none }
  if r.collection_type == "cube" then do
    let proj4text ← get_collection_crs db.collections grss r.id
    let x0 ← pyIndex bbox 0
    let x2 ← pyIndex bbox 2
    let y1 ← pyIndex bbox 1
    let y3 ← pyIndex bbox 3
    return ({ base with
      cube_x_extent := some (x0, x2)
      cube_y_extent := some (y1, y3)
      cube_temporal_extent := some (startOpt, endOpt)
      cube_temporal_values := some (db.timeline r.id)
      cube_bands_values := some (collection_eo.eo_bands.map (·.name))
      bdc_crs := some proj4text
      bdc_temporal_composition := r.temporal_composition_schema }, metaAfter)
  else
    return (base, metaAfter)

/-- The row filter of the `get_collections` query: the mandatory visibility
disjunction, plus the external-id equality when `collection_id` is truthy
(`if collection_id:` — `None` and the empty string both skip it). -/
def get_collections_rows (rows : List CollectionRow) (collection_id : Option String)
    (roles : List String) : Except PyError (List CollectionRow) := do
  let roleIds ← parse_roles roles
  let base := fun (r : CollectionRow) => r.is_public || roleIds.contains r.id
  let keep :=
    match collection_id with
    | some cid =>
      if cid.isEmpty then base
      else fun r => base r && ((r.name ++ "-" ++ r.version) == cid)
    | none => base
  return rows.filter keep

/-- `get_collections` end to end: filter the visible rows and assemble each
document (an exception in any iteration aborts the whole call). -/
def get_collections_run (db : CatalogDB) (grss : List GridRefSysRec)
    (collection_id : Option String) (roles : List String) :
    Except PyError (List (CollectionDoc × Option MetaObj)) := do
  let rows ← get_collections_rows db.collections collection_id roles
  rows.mapM (assemble_collection db grss)

/-- `get_catalog`: the same visibility filter, projecting each visible
collection to `(id, concat(name, "-", version), title)`. -/
def get_catalog (rows : List CollectionRow) (roles : List String) :
    Except PyError (List (Int × String × String)) := do
  let roleIds ← parse_roles roles
  return (rows.filter (fun r => r.is_public || roleIds.contains r.id)).map
    (fun r => (r.id, r.name ++ "-" ++ r.version, r.title))

/-! ### Helper lemmas -/

theorem ok_bind {α β ε : Type} (a : α) (f : α → Except ε β) :
    (Except.ok a >>= f) = f a := rfl

theorem error_bind {α β ε : Type} (e : ε) (f : α → Except ε β) :
    ((Except.error e : Except ε α) >>= f) = .error e := rfl

theorem mem_insertStartDesc {a r : ItemRow} : ∀ {l : List ItemRow},
    a ∈ insertStartDesc r l → a = r ∨ a ∈ l := by
  intro l
  induction l with
  | nil => intro h; simp [insertStartDesc] at h; exact Or.inl h
  | cons x xs ih =>
    intro h
    by_cases hc : strLt x.start r.start = true
    · simp [insertStartDesc, hc] at h
      rcases h with h | h | h
      · exact Or.inl h
      · exact Or.inr (by simp [h])
      · exact Or.inr (by simp [h])
    · simp [insertStartDesc, hc] at h
      rcases h with h | h
      · exact Or.inr (by simp [h])
      · rcases ih h with h' | h'
        · exact Or.inl h'
        · exact Or.inr (by simp [h'])

theorem mem_sortStartDesc {a : ItemRow} : ∀ {l : List ItemRow},
    a ∈ sortStartDesc l → a ∈ l := by
  intro l
  induction l with
  | nil => intro h; simp [sortStartDesc] at h
  | cons x xs ih =>
    intro h
    have h' : a ∈ insertStartDesc x (sortStartDesc xs) := by
      simpa [sortStartDesc] using h
    rcases mem_insertStartDesc h' with h'' | h''
    · simp [h'']
    · exact List.mem_cons_of_mem _ (ih (by simpa [sortStartDesc] using h''))

theorem mem_paginate {α : Type} {a : α} {rows : List α} {p l m : Nat}
    (h : a ∈ (paginate rows p l m).items) : a ∈ rows := by
  unfold paginate at h
  exact ((List.take_sublist _ _).trans (List.drop_sublist _ _)).mem h

/-- Whatever the filter parameters, a successfully compiled `where` list
starts with the join condition and the visibility predicate of the parsed
roles. -/
theorem items_where_ok_shape {collection_id : Option String} {roles : List String}
    {item_id bbox datetime ids collections intersects : Option String} {query : Option QueryMap}
    {preds : List Pred}
    (h : get_collection_items_where collection_id roles item_id bbox datetime ids
      collections intersects query = .ok preds) :
    ∃ rids rest, parse_roles roles = .ok rids ∧
      preds = Pred.collectionJoin :: Pred.visibility rids :: rest := by
  unfold get_collection_items_where at h
  cases h1 : parse_roles roles with
  | error e => rw [h1, error_bind] at h; exact absurd h (by simp)
  | ok rids =>
    rw [h1, ok_bind] at h
    cases h2 : items_where_rest collection_id item_id bbox datetime ids collections
        intersects query with
    | error e => rw [h2, error_bind] at h; exact absurd h (by simp)
    | ok rest =>
      rw [h2, ok_bind] at h
      refine ⟨rids, rest, rfl, ?_⟩
      simp only [pure, Except.pure] at h
      exact (Except.ok.inj h).symm

/-- Any row of a successful `get_collection_items` result satisfies the
visibility disjunction. -/
theorem visibility_of_mem_items (env : GeoEnv) (db : List ItemRow) (cid : Option String)
    (roles : List String) (itid bbox dt ids cols geo : Option String) (q : Option QueryMap)
    (pg lim m : Nat) (res : PageResult ItemRow) (r : ItemRow) (rids : List Int)
    (hrun : get_collection_items_run env db cid roles itid bbox dt ids cols geo q pg lim m
      = .ok res)
    (hroles : parse_roles roles = .ok rids)
    (hmem : r ∈ res.items) :
    (r.is_public || rids.contains r.coll_id) = true := by
  unfold get_collection_items_run at hrun
  cases hw : get_collection_items_where cid roles itid bbox dt ids cols geo q with
  | error e => rw [hw, error_bind] at hrun; exact absurd hrun (by simp)
  | ok preds =>
    rw [hw, ok_bind] at hrun
    obtain ⟨rids', rest, hroles', hshape⟩ := items_where_ok_shape hw
    rw [hroles'] at hroles
    have hrids : rids' = rids := Except.ok.inj hroles
    subst hrids hshape
    simp only [pure, Except.pure] at hrun
    have hres := Except.ok.inj hrun
    subst hres
    have h1 : r ∈ sortStartDesc (db.filter
        (fun r => (Pred.collectionJoin :: Pred.visibility rids' :: rest).all
          (evalPred env r))) := mem_paginate hmem
    have h2 := mem_sortStartDesc h1
    have h3 := (List.mem_filter.mp h2).2
    simp only [List.all_cons, Bool.and_eq_true] at h3
    exact h3.2.1

/-- Any row of a successful `get_collections` row query satisfies the
visibility disjunction. -/
theorem visibility_of_mem_collections (rows : List CollectionRow) (cid : Option String)
    (roles : List String) (res : List CollectionRow) (r : CollectionRow) (rids : List Int)
    (hrun : get_collections_rows rows cid roles = .ok res)
    (hroles : parse_roles roles = .ok rids)
    (hmem : r ∈ res) :
    (r.is_public || rids.contains r.id) = true := by
  unfold get_collections_rows at hrun
  rw [hroles, ok_bind] at hrun
  simp only [pure, Except.pure] at hrun
  have hres := Except.ok.inj hrun
  subst hres
  rcases cid with _ | cid
  · exact (List.mem_filter.mp hmem).2
  · by_cases he : cid.isEmpty = true
    · simp only [he, if_pos] at hmem
      exact (List.mem_filter.mp hmem).2
    · simp only [he, if_neg, Bool.false_eq_true, not_false_iff] at hmem
      have := (List.mem_filter.mp hmem).2
      exact ((Bool.and_eq_true _ _).mp this).1

/-- Any entry of a successful `get_catalog` result is the projection of a
database row satisfying the visibility disjunction. -/
theorem visibility_of_mem_catalog (rows : List CollectionRow) (roles : List String)
    (res : List (Int × String × String)) (x : Int × String × String) (rids : List Int)
    (hrun : get_catalog rows roles = .ok res)
    (hroles : parse_roles roles = .ok rids)
    (hmem : x ∈ res) :
    ∃ rr, rr ∈ rows ∧ (rr.is_public || rids.contains rr.id) = true ∧
      x = (rr.id, rr.name ++ "-" ++ rr.version, rr.title) := by
  unfold get_catalog at hrun
  rw [hroles, ok_bind] at hrun
  simp only [pure, Except.pure] at hrun
  have hres := Except.ok.inj hrun
  subst hres
  obtain ⟨rr, hrr, hx⟩ := List.mem_map.mp hmem
  exact ⟨rr, (List.mem_filter.mp hrr).1, (List.mem_filter.mp hrr).2, hx.symm⟩

/-! ### Concrete fixtures -/

/-- A spatial oracle that accepts everything (no spatial filter is active in
the scenarios using it). -/
def envAll : GeoEnv :=
  { intersectsGeoJSON := fun _ _ => true
    intersectsEnvelope := fun _ _ _ _ _ => true
    sqlLike := fun _ _ => true }

/-- A non-public collection with id 5 (visibility fixture). -/
def coll5 : CollectionRow :=
  { id := 5, is_public := false, name := "S2", version := "1", title := "five",
    description := "", collection_type := "", meta := none, start := none, end_ := none,
    composite_function := none, grid_ref_sys := none, grid_ref_sys_id := none,
    temporal_composition_schema := none }

/-- A non-public collection with id 6 (visibility fixture). -/
def coll6 : CollectionRow :=
  { coll5 with id := 6, title := "six" }

/-- An item row of the non-public collection 5 (visibility fixture). -/
def item5row : ItemRow :=
  { coll_id := 5, is_public := false, coll_name := "S2", coll_version := "1",
    collection_type := "", item_name := "it1", item_collection_id := 5,
    start := "2020-01-01", end_ := "2020-01-02", cloud_cover := none, geom := "g",
    tile := none }

/-! ### Claims -/

/-- C1: in `get_collection_items`, when the `ids` parameter is present the
compiled item query is unaffected by every combination of the other filter
parameters (`item_id`, `collection_id`, `collections`, `bbox`, `intersects`,
`datetime`, `query`): the compiled `where` list — and hence the whole
paginated query result on any database — with `ids` set and any of the
other filters additionally set equals the one with `ids` set alone. -/
theorem ids_precedence_law :
    (∀ (roles : List String) (s : String)
      (collection_id item_id bbox datetime collections intersects : Option String)
      (query : Option QueryMap),
      get_collection_items_where collection_id roles item_id bbox datetime (some s)
        collections intersects query
        = get_collection_items_where none roles none none none (some s) none none none)
    ∧ (∀ (env : GeoEnv) (db : List ItemRow) (roles : List String) (s : String)
      (collection_id item_id bbox datetime collections intersects : Option String)
      (query : Option QueryMap) (page limit maxLimit : Nat),
      get_collection_items_run env db collection_id roles item_id bbox datetime (some s)
        collections intersects query page limit maxLimit
        = get_collection_items_run env db none roles none none none (some s) none none none
            page limit maxLimit) :=
  ⟨fun _ _ _ _ _ _ _ _ _ => rfl, fun _ _ _ _ _ _ _ _ _ _ _ _ _ _ => rfl⟩

/-- C2: every query over collections (`get_collection_items`,
`get_collections`, `get_catalog`) carries the visibility predicate as a
mandatory conjunct: a returned row's collection is public or its id is
among the integers parsed from the `"<collection_id>:<scope>"` role
prefixes; and concretely a caller with roles `["5:read"]` sees the
non-public collection 5 and never the non-public collection 6. -/
theorem visibility_mandatory :
    (∀ (env : GeoEnv) (db : List ItemRow) (cid : Option String) (roles : List String)
      (itid bbox dt ids cols geo : Option String) (q : Option QueryMap) (pg lim m : Nat)
      (res : PageResult ItemRow) (r : ItemRow) (rids : List Int),
      get_collection_items_run env db cid roles itid bbox dt ids cols geo q pg lim m
        = .ok res →
      parse_roles roles = .ok rids →
      r ∈ res.items →
      (r.is_public || rids.contains r.coll_id) = true)
    ∧ (∀ (rows : List CollectionRow) (cid : Option String) (roles : List String)
      (res : List CollectionRow) (r : CollectionRow) (rids : List Int),
      get_collections_rows rows cid roles = .ok res →
      parse_roles roles = .ok rids →
      r ∈ res →
      (r.is_public || rids.contains r.id) = true)
    ∧ (∀ (rows : List CollectionRow) (roles : List String)
      (res : List (Int × String × String)) (x : Int × String × String) (rids : List Int),
      get_catalog rows roles = .ok res →
      parse_roles roles = .ok rids →
      x ∈ res →
      ∃ rr, rr ∈ rows ∧ (rr.is_public || rids.contains rr.id) = true ∧
        x = (rr.id, rr.name ++ "-" ++ rr.version, rr.title))
    ∧ get_collections_rows [coll5, coll6] none ["5:read"] = .ok [coll5] := by
  refine ⟨?_, ?_, ?_, ?_⟩
  · intro env db cid roles itid bbox dt ids cols geo q pg lim m res r rids h1 h2 h3
    exact visibility_of_mem_items env db cid roles itid bbox dt ids cols geo q pg lim m
      res r rids h1 h2 h3
  · intro rows cid roles res r rids h1 h2 h3
    exact visibility_of_mem_collections rows cid roles res r rids h1 h2 h3
  · intro rows roles res x rids h1 h2 h3
    exact visibility_of_mem_catalog rows roles res x rids h1 h2 h3
  · with_unfolding_all rfl

/-- C2 witness: the first clause applied to a one-item database of the
non-public collection 5 queried with roles `["5:read"]`. -/
theorem visibility_mandatory_witness :
    (item5row.is_public || ([(5 : Int)] : List Int).contains item5row.coll_id) = true :=
  visibility_mandatory.1 envAll [item5row] none ["5:read"] none none none none none none
    none 1 10 1000 ⟨[item5row], 1, false⟩ item5row [5]
    (by with_unfolding_all rfl) (by with_unfolding_all rfl) (by simp)

theorem compile_bbox_degenerate {b : String} {a x c d : Rat} {rest : List Rat}
    (hp : (pySplit b ',').mapM pyFloat = some (a :: x :: c :: d :: rest))
    (hdeg : a = c ∨ x = d) :
    compile_bbox b = .error .invalidBoundingBox := by
  unfold compile_bbox
  rw [hp]
  have : (a == c || x == d) = true := by
    rcases hdeg with h | h <;> simp [h]
  simp [this]

theorem compile_bbox_nonnumeric {b : String}
    (hp : (pySplit b ',').mapM pyFloat = none) :
    compile_bbox b = .error .invalidBoundingBox := by
  unfold compile_bbox
  rw [hp]

theorem compile_bbox_short {b : String} {vals : List Rat}
    (hp : (pySplit b ',').mapM pyFloat = some vals)
    (hlen : vals.length < 4) :
    compile_bbox b = .error .invalidBoundingBox := by
  unfold compile_bbox
  rw [hp]
  match vals, hlen with
  | [], _ => rfl
  | [_], _ => rfl
  | [_, _], _ => rfl
  | [_, _, _], _ => rfl

theorem compile_bbox_ok {b : String} {a x c d : Rat} {rest : List Rat}
    (hp : (pySplit b ',').mapM pyFloat = some (a :: x :: c :: d :: rest))
    (h1 : ¬(a = c)) (h2 : ¬(x = d)) :
    compile_bbox b = .ok (.intersectsEnvelope a x c d) := by
  unfold compile_bbox
  rw [hp]
  simp [h1, h2]

theorem rest_bbox_error {cid cols dt : Option String} {q : Option QueryMap}
    {ws : List Pred} {b : String}
    (hq : items_query_filters q = .ok ws)
    (h : compile_bbox b = .error .invalidBoundingBox) :
    items_where_rest cid none (some b) dt none cols none q
      = .error .invalidBoundingBox := by
  unfold items_where_rest
  rw [hq]
  simp [h, error_bind, ok_bind]

theorem rest_bbox_ok {q : Option QueryMap} {ws : List Pred} {b : String} {p : Pred}
    (hq : items_query_filters q = .ok ws)
    (h : compile_bbox b = .ok p) :
    items_where_rest none none (some b) none none none none q
      = .ok (ws ++ [p]) := by
  unfold items_where_rest
  rw [hq]
  simp [h, error_bind, ok_bind]

theorem where_bbox_error {cid cols dt : Option String} {q : Option QueryMap}
    {ws : List Pred} {roles : List String} {rids : List Int} {b : String}
    (hr : parse_roles roles = .ok rids)
    (hq : items_query_filters q = .ok ws)
    (h : compile_bbox b = .error .invalidBoundingBox) :
    get_collection_items_where cid roles none (some b) dt none cols none q
      = .error .invalidBoundingBox := by
  unfold get_collection_items_where
  rw [hr, ok_bind, rest_bbox_error hq h, error_bind]

theorem where_bbox_ok {q : Option QueryMap} {ws : List Pred} {roles : List String}
    {rids : List Int} {b : String} {p : Pred}
    (hr : parse_roles roles = .ok rids)
    (hq : items_query_filters q = .ok ws)
    (h : compile_bbox b = .ok p) :
    get_collection_items_where none roles none (some b) none none none none q
      = .ok (Pred.collectionJoin :: Pred.visibility rids :: (ws ++ [p])) := by
  unfold get_collection_items_where
  rw [hr, ok_bind, rest_bbox_ok hq h, ok_bind]
  rfl

/-- C3 counterexample: `"0,0,1,1,2"` is *not* 4 comma-separated values
(it has five), yet `get_collection_items` does not raise
`InvalidBoundingBoxError`: it builds the envelope from the first four
coordinates and ignores the fifth. -/
theorem bbox_not_four_values_no_error :
    (pySplit "0,0,1,1,2" ',').length = 5 ∧
    get_collection_items_where none [] none (some "0,0,1,1,2") none none none none none
      = .ok [Pred.collectionJoin, Pred.visibility [], Pred.intersectsEnvelope 0 0 1 1] := by
  constructor
  · with_unfolding_all rfl
  · with_unfolding_all rfl

/-- C3 (amended): for every bbox argument reaching the spatial filter
(`ids`, `item_id`, `intersects` absent, and the `query` property-filter
step — which the source runs first — succeeding; an invalid `query` raises
its own `KeyError` before the bbox is examined), `get_collection_items`
raises `InvalidBoundingBoxError` if any comma-separated piece is
non-numeric, if there are fewer than 4 pieces, or if the parsed values are
degenerate (first equals third, or second equals fourth); for any
degenerate all-numeric tuple it always raises.  With at least 4 numeric
values and no degeneracy it builds the envelope from the first four values
(pieces after the fourth are ignored, not rejected). -/
theorem bbox_validation_behaviour :
    (∀ (cid cols dt : Option String) (q : Option QueryMap) (ws : List Pred)
      (roles : List String) (rids : List Int) (b : String)
      (a x c d : Rat) (rest : List Rat),
      parse_roles roles = .ok rids →
      items_query_filters q = .ok ws →
      (pySplit b ',').mapM pyFloat = some (a :: x :: c :: d :: rest) →
      (a = c ∨ x = d) →
      get_collection_items_where cid roles none (some b) dt none cols none q
        = .error .invalidBoundingBox)
    ∧ (∀ (cid cols dt : Option String) (q : Option QueryMap) (ws : List Pred)
      (roles : List String) (rids : List Int) (b : String),
      parse_roles roles = .ok rids →
      items_query_filters q = .ok ws →
      (pySplit b ',').mapM pyFloat = none →
      get_collection_items_where cid roles none (some b) dt none cols none q
        = .error .invalidBoundingBox)
    ∧ (∀ (cid cols dt : Option String) (q : Option QueryMap) (ws : List Pred)
      (roles : List String) (rids : List Int) (b : String) (vals : List Rat),
      parse_roles roles = .ok rids →
      items_query_filters q = .ok ws →
      (pySplit b ',').mapM pyFloat = some vals →
      vals.length < 4 →
      get_collection_items_where cid roles none (some b) dt none cols none q
        = .error .invalidBoundingBox)
    ∧ (∀ (q : Option QueryMap) (ws : List Pred) (roles : List String) (rids : List Int)
      (b : String) (a x c d : Rat) (rest : List Rat),
      parse_roles roles = .ok rids →
      items_query_filters q = .ok ws →
      (pySplit b ',').mapM pyFloat = some (a :: x :: c :: d :: rest) →
      ¬(a = c) → ¬(x = d) →
      get_collection_items_where none roles none (some b) none none none none q
        = .ok (Pred.collectionJoin :: Pred.visibility rids
            :: (ws ++ [Pred.intersectsEnvelope a x c d]))) := by
  refine ⟨?_, ?_, ?_, ?_⟩
  · intro cid cols dt q ws roles rids b a x c d rest hr hq hp hdeg
    exact where_bbox_error hr hq (compile_bbox_degenerate hp hdeg)
  · intro cid cols dt q ws roles rids b hr hq hp
    exact where_bbox_error hr hq (compile_bbox_nonnumeric hp)
  · intro cid cols dt q ws roles rids b vals hr hq hp hlen
    exact where_bbox_error hr hq (compile_bbox_short hp hlen)
  · intro q ws roles rids b a x c d rest hr hq hp h1 h2
    exact where_bbox_ok hr hq (compile_bbox_ok hp h1 h2)

/-- A valid non-empty `query` parameter (one `bdc:tile = "x"` filter),
exercising the case where the property-filter step succeeds and the bbox
branch still runs (C3 witness fixture). -/
def queryTileEq : QueryMap := [("bdc:tile", [("eq", QVal.str "x")])]

/-- C3 witness: the degenerate clause applied to the bbox `"1,2,1,3"`
(first equals third) with the valid non-empty query `bdc:tile = "x"`
present — the query compiles and the bbox still raises. -/
theorem bbox_validation_behaviour_witness :
    parse_roles ([] : List String) = .ok [] ∧
    items_query_filters (some queryTileEq)
      = .ok [Pred.propFilter "bdc:tile" "eq" (.str "x")] ∧
    (pySplit "1,2,1,3" ',').mapM pyFloat = some [1, 2, 1, 3] ∧
    get_collection_items_where none [] none (some "1,2,1,3") none none none none
        (some queryTileEq)
      = .error .invalidBoundingBox :=
  ⟨by with_unfolding_all rfl, by with_unfolding_all rfl, by with_unfolding_all rfl,
    bbox_validation_behaviour.1 none none none (some queryTileEq)
      [Pred.propFilter "bdc:tile" "eq" (.str "x")] [] [] "1,2,1,3" 1 2 1 3 []
      (by with_unfolding_all rfl) (by with_unfolding_all rfl)
      (by with_unfolding_all rfl) (Or.inl rfl)⟩

/-- An item inside the query window of the C4 example. -/
def itemA : ItemRow :=
  { coll_id := 1, is_public := true, coll_name := "S2", coll_version := "1",
    collection_type := "", item_name := "A", item_collection_id := 1,
    start := "2020-01-15", end_ := "2020-01-20", cloud_cover := none, geom := "g",
    tile := none }

/-- An item overlapping the query window of the C4 example from the left. -/
def itemB : ItemRow :=
  { itemA with item_name := "B", start := "2019-12-01", end_ := "2020-01-05" }

/-- The item of the C5 single-instant example: it lies entirely before the
instant. -/
def itemC : ItemRow :=
  { itemA with item_name := "C", start := "2019-06-01", end_ := "2019-06-10" }

/-- C4: a `datetime` containing `/` compiles to the inclusive-range filter,
which matches exactly the items whose `start_date` lies in the range OR
whose `end_date` lies in the range; concretely the range
`"2020-01-01/2020-01-31"` matches both an item with start 2020-01-15 /
end 2020-01-20 and an item with start 2019-12-01 / end 2020-01-05. -/
theorem datetime_range_semantics :
    compile_datetime "2020-01-01/2020-01-31"
      = .ok [Pred.dateRange "2020-01-01" "2020-01-31"]
    ∧ (∀ (env : GeoEnv) (r : ItemRow) (ts te : String),
      evalPred env r (.dateRange ts te) = true ↔
        ((strLe ts r.start = true ∧ strLe r.start te = true)
          ∨ (strLe ts r.end_ = true ∧ strLe r.end_ te = true)))
    ∧ get_collection_items_run envAll [itemA, itemB] none [] none none
        (some "2020-01-01/2020-01-31") none none none none 1 10 1000
      = .ok ⟨[itemA, itemB], 2, false⟩ := by
  refine ⟨by with_unfolding_all rfl, ?_, by with_unfolding_all rfl⟩
  intro env r ts te
  simp [evalPred]

/-- C5: a `datetime` without `/` compiles to the single-instant filter
`start_date ≤ t OR end_date ≤ t` (the literal inherited semantic), not to
the containment `start_date ≤ t ≤ end_date`; concretely the instant
2020-01-01 matches an item spanning 2019-06-01 … 2019-06-10 even though
the instant is not inside the item's interval. -/
theorem datetime_instant_semantics :
    compile_datetime "2020-01-01" = .ok [Pred.dateInstant "2020-01-01"]
    ∧ (∀ (env : GeoEnv) (r : ItemRow) (t : String),
      evalPred env r (.dateInstant t) = true ↔
        (strLe r.start t = true ∨ strLe r.end_ t = true))
    ∧ get_collection_items_run envAll [itemC] none [] none none (some "2020-01-01")
        none none none none 1 10 1000
      = .ok ⟨[itemC], 1, false⟩
    ∧ (strLe itemC.start "2020-01-01" && strLe "2020-01-01" itemC.end_) = false := by
  refine ⟨by with_unfolding_all rfl, ?_, by with_unfolding_all rfl,
    by with_unfolding_all rfl⟩
  intro env r t
  simp [evalPred]

theorem eo_fold_spec : ∀ (bands : List Band) (acc : List EOBand × Rat),
    bands.foldl
      (fun (acc : List EOBand × Rat) b =>
        (acc.1 ++ [eoDescriptor b], if b.gsd > acc.2 then b.gsd else acc.2)) acc
      = (acc.1 ++ bands.map eoDescriptor,
         (bands.map Band.gsd).foldl (fun a x => if x > a then x else a) acc.2) := by
  intro bands
  induction bands with
  | nil => intro acc; simp
  | cons b bs ih =>
    intro acc
    simp only [List.foldl_cons, List.map_cons]
    rw [ih]
    simp

theorem if_gt_eq_max (a x : Rat) : (if x > a then x else a) = max a x := by
  rcases le_or_lt x a with h | h
  · simp [not_lt.mpr h, max_eq_left h]
  · simp [h, max_eq_right h.le]

theorem foldl_if_gt_eq_foldl_max (l : List Rat) (a : Rat) :
    l.foldl (fun a x => if x > a then x else a) a = l.foldl max a := by
  simp only [if_gt_eq_max]

theorem le_foldl_max : ∀ (l : List Rat) (a : Rat), a ≤ l.foldl max a := by
  intro l
  induction l with
  | nil => intro a; simp
  | cons x xs ih =>
    intro a
    exact le_trans (le_max_left a x) (ih (max a x))

theorem mem_le_foldl_max : ∀ (l : List Rat) (a x : Rat), x ∈ l → x ≤ l.foldl max a := by
  intro l
  induction l with
  | nil => intro a x h; simp at h
  | cons y ys ih =>
    intro a x h
    rcases List.mem_cons.mp h with h | h
    · subst h
      exact le_trans (le_max_right a x) (le_foldl_max ys (max a x))
    · exact ih _ x h

theorem foldl_max_mem_or : ∀ (l : List Rat) (a : Rat),
    l.foldl max a = a ∨ l.foldl max a ∈ l := by
  intro l
  induction l with
  | nil => intro a; simp
  | cons x xs ih =>
    intro a
    rcases ih (max a x) with h | h
    · rcases le_or_lt x a with hx | hx
      · left; simp only [List.foldl_cons]; rw [h, max_eq_left hx]
      · right; simp only [List.foldl_cons]; rw [h, max_eq_right hx.le]; simp
    · right
      simp only [List.foldl_cons]
      exact List.mem_cons_of_mem _ h

/-- A band row with the given name and resolution and neutral remaining
physical properties (C6 fixtures). -/
def mkBand (nm : String) (g : Rat) : Band :=
  { name := nm, common_name := nm, description := "", min := 0, max := 0, nodata := 0,
    scale := 1, gsd := g, data_type := "int16", center_wavelength := 0,
    full_width_half_max := 0 }

/-- A band whose stored resolution is negative (C6 counterexample input). -/
def bandNeg : Band := mkBand "N" (-1)

/-- C6 counterexample: for a collection whose single band has resolution
−1, `get_collection_eo` returns `eo:gsd = 0` (the loop starts at `0.0` and
only ever replaces it by a larger value), while the maximum of the
per-band resolutions is −1 — so the returned value is not the maximum over
the collection's bands. -/
theorem eo_gsd_not_band_maximum :
    (get_collection_eo [bandNeg]).eo_gsd = 0
    ∧ (∀ b ∈ [bandNeg], b.gsd = -1)
    ∧ ((0 : Rat) ≠ -1) := by
  refine ⟨by with_unfolding_all rfl, ?_, by norm_num⟩
  intro b hb
  simp only [List.mem_singleton] at hb
  subst hb
  with_unfolding_all rfl

/-- C6 (amended): `get_collection_eo` returns the ordered list of band
descriptors, and a ground-sample-distance equal to the maximum of `0.0`
and the per-band resolutions (the fold of `max` from `0`); whenever the
collection has at least one band and no negative resolution this is
exactly the maximum over the bands (it is one of the per-band resolutions
and an upper bound of them); for resolutions `[10, 20, 30]` it is `30`. -/
theorem eo_gsd_spec :
    (∀ bands : List Band, (get_collection_eo bands).eo_bands = bands.map eoDescriptor)
    ∧ (∀ bands : List Band,
        (get_collection_eo bands).eo_gsd = (bands.map Band.gsd).foldl max 0)
    ∧ (∀ bands : List Band, bands ≠ [] → (∀ b ∈ bands, (0 : Rat) ≤ b.gsd) →
        ((get_collection_eo bands).eo_gsd ∈ bands.map Band.gsd
          ∧ ∀ b ∈ bands, b.gsd ≤ (get_collection_eo bands).eo_gsd))
    ∧ (get_collection_eo [mkBand "B1" 10, mkBand "B2" 20, mkBand "B3" 30]).eo_gsd = 30 := by
  have hbands : ∀ bands : List Band,
      (get_collection_eo bands).eo_bands = bands.map eoDescriptor := by
    intro bands
    unfold get_collection_eo
    rw [eo_fold_spec]
    simp
  have hgsd : ∀ bands : List Band,
      (get_collection_eo bands).eo_gsd = (bands.map Band.gsd).foldl max 0 := by
    intro bands
    unfold get_collection_eo
    rw [eo_fold_spec]
    simp [foldl_if_gt_eq_foldl_max]
  refine ⟨hbands, hgsd, ?_, by with_unfolding_all rfl⟩
  intro bands hne hnn
  rw [hgsd]
  constructor
  · rcases foldl_max_mem_or (bands.map Band.gsd) 0 with h0 | hm
    · obtain ⟨b, bs, rfl⟩ : ∃ b bs, bands = b :: bs := by
        cases bands with
        | nil => exact absurd rfl hne
        | cons b bs => exact ⟨b, bs, rfl⟩
      have hb : b.gsd ∈ (b :: bs).map Band.gsd := by simp
      have h1 := mem_le_foldl_max ((b :: bs).map Band.gsd) 0 _ hb
      rw [h0] at h1
      have h2 : (0 : Rat) ≤ b.gsd := hnn b (by simp)
      have h3 : b.gsd = 0 := le_antisymm h1 h2
      rw [h0, ← h3]
      exact hb
    · exact hm
  · intro b hb
    exact mem_le_foldl_max _ 0 _ (List.mem_map_of_mem _ hb)

/-- C6 witness: the maximum clause applied to the three-band collection
with resolutions 10, 20 and 30. -/
theorem eo_gsd_spec_witness :
    ((get_collection_eo [mkBand "B1" 10, mkBand "B2" 20, mkBand "B3" 30]).eo_gsd
      ∈ [mkBand "B1" 10, mkBand "B2" 20, mkBand "B3" 30].map Band.gsd)
    ∧ (∀ b ∈ [mkBand "B1" 10, mkBand "B2" 20, mkBand "B3" 30],
        b.gsd ≤ (get_collection_eo [mkBand "B1" 10, mkBand "B2" 20,
          mkBand "B3" 30]).eo_gsd) :=
  eo_gsd_spec.2.2.1 [mkBand "B1" 10, mkBand "B2" 20, mkBand "B3" 30]
    (by simp)
    (by intro b hb; fin_cases hb <;> norm_num [mkBand])

/-- A public collection with a NULL grid-reference foreign key (C7 failing
input). -/
def cubeNoGrs : CollectionRow :=
  { coll5 with
    id := 7
    is_public := true
    collection_type := "cube"
    grid_ref_sys_id := none }

/-- A grid-reference row present in the database (so the C7 crash is due to
the collection's NULL foreign key, not to an empty grid table). -/
def grs1 : GridRefSysRec := { id := 1, name := "g", crs := "EPSG:4326" }

/-- C7: for a collection whose grid reference is absent, `get_collection_crs`
does not signal the missing CRS explicitly — the `first()` result is `None`
and the `grs.crs` attribute access crashes with `AttributeError` (the code
has no `MissingCRSError` or "no CRS" result). -/
theorem crs_missing_grid_crashes :
    get_collection_crs [cubeNoGrs] [grs1] 7 = .error .attributeError := by
  with_unfolding_all rfl

/-- A collection metadata blob holding a `platform` entry next to other
metadata (C8 failing input). -/
def metaPlat : MetaObj :=
  [("platform", .obj [("code", .str "CBERS-4"), ("instruments", .arr [.str "MUX"])]),
   ("other", .str "x")]

/-- C8: the platform/instrument lifting is not a pure transform on the
source metadata: it pops the `platform` key from the shared metadata object
in place, so after processing a row whose metadata held `platform` the
row's metadata object differs from the original (here it has lost an
entry). -/
theorem lift_platform_mutates_meta :
    lift_platform (some metaPlat)
      = .ok (some (.arr [.str "MUX"]), some (.str "CBERS-4"),
             some [("other", .str "x")], some [("other", .str "x")])
    ∧ ([("other", MetaVal.str "x")] : MetaObj) ≠ metaPlat := by
  constructor
  · with_unfolding_all rfl
  · intro h
    have := congrArg List.length h
    simp [metaPlat] at this

/-- A database of 25 items of a public collection (C9 fixture). -/
def db25 : List ItemRow :=
  (List.range 25).map (fun i => { itemA with item_name := "i" ++ toString i })

/-- C9: pagination is 1-indexed (page 1 is the first window of the ordered
result), the page size is clamped to the configured maximum, and an
out-of-range page is an empty page rather than an error: with limit 10 over
25 matching items page 3 holds the remaining 5 items with no next page,
and page 10 is the empty list. -/
theorem pagination_spec :
    (∀ (α : Type) (rows : List α) (limit m : Nat),
      (paginate rows 1 limit m).items = rows.take (min limit m))
    ∧ (∀ (α : Type) (rows : List α) (page limit m : Nat),
      (paginate rows page limit m).items.length ≤ min limit m)
    ∧ (get_collection_items_run envAll db25 none [] none none none none none none none
        3 10 1000).map (fun pg => (pg.items.length, pg.total, pg.has_next))
      = .ok (5, 25, false)
    ∧ (get_collection_items_run envAll db25 none [] none none none none none none none
        10 10 1000).map (fun pg => (pg.items, pg.total, pg.has_next))
      = .ok ([], 25, false) := by
  refine ⟨?_, ?_, by with_unfolding_all rfl, by with_unfolding_all rfl⟩
  · intro α rows limit m
    simp [paginate]
  · intro α rows page limit m
    simp only [paginate, List.length_take]
    exact le_trans (min_le_left _ _) (le_refl _)

/-- A visible cube collection whose grid reference exists but whose items
contribute no spatial extent (C10 fixture). -/
def cube7 : CollectionRow :=
  { coll5 with
    id := 7
    is_public := true
    collection_type := "cube"
    grid_ref_sys_id := some 1 }

/-- The catalog database of the C10 fixture: the single cube collection,
an `ST_Extent` aggregate of NULL (no items with geometry), and empty
band/tile/quicklook/timeline sub-queries. -/
def cubeDB : CatalogDB :=
  { collections := [cube7]
    st_extent := fun _ => none
    bands := fun _ => []
    tiles := fun _ => []
    quicklook := fun _ => none
    timeline := fun _ => [] }

/-- C10: for every visible collection of kind `cube` whose items contribute
no spatial extent (the `ST_Extent` aggregate is NULL, so
`get_collection_extent` yields the empty list), `get_collections` raises an
index-out-of-range error instead of returning a document: the datacube x/y
derivation indexes `bbox[0] … bbox[3]` without guarding the empty extent.
(The collection's metadata is empty and its CRS lookup succeeds, so no
earlier step fails first.) -/
theorem cube_empty_extent_index_error :
    (∀ (db : CatalogDB) (grss : List GridRefSysRec) (r : CollectionRow) (c : String),
      r.collection_type = "cube" →
      r.meta = none →
      db.st_extent r.id = none →
      get_collection_crs db.collections grss r.id = .ok c →
      assemble_collection db grss r = .error .indexError)
    ∧ get_collections_run cubeDB [grs1] none [] = .error .indexError := by
  constructor
  · intro db grss r c htype hmeta hext hcrs
    unfold assemble_collection
    rw [hmeta, hext]
    simp only [getLicense, lift_platform, ok_bind]
    rw [htype]
    cases hstart : r.start with
    | none =>
      simp only [get_collection_extent, ok_bind]
      rw [hcrs]
      simp [pyIndex, ok_bind, error_bind]
    | some s =>
      simp only [get_collection_extent, ok_bind]
      rw [hcrs]
      simp [pyIndex, ok_bind, error_bind]
  · with_unfolding_all rfl

/-- C10 witness: the general clause applied to the fixture cube collection
with the NULL extent aggregate. -/
theorem cube_empty_extent_index_error_witness :
    cube7.collection_type = "cube"
    ∧ cubeDB.st_extent cube7.id = none
    ∧ get_collection_crs cubeDB.collections [grs1] cube7.id = .ok "EPSG:4326"
    ∧ assemble_collection cubeDB [grs1] cube7 = .error .indexError :=
  ⟨rfl, rfl, by with_unfolding_all rfl,
    cube_empty_extent_index_error.1 cubeDB [grs1] cube7 "EPSG:4326" rfl rfl rfl
      (by with_unfolding_all rfl)⟩

end BdcStac
